import Mathlib

/-!
Shallow embedding of the CBOR streaming decoder of `src/de.rs` and proofs
about its specified behaviour.

The byte source (`std::io::Read`) is modelled as a `List Nat` of byte values;
the mutable read position is threaded explicitly, and every recursive parsing
function also returns the stream position reached, mirroring in-place
mutation of the reader (this matters for the one error that call sites catch,
the stop code).  The recursive parser takes an explicit fuel argument;
`Fault.outOfFuel` marks fuel exhaustion of the model and is distinct from
every error of the program.

The `serde` visitor layer is instantiated with the generic tree-building
visitor (`Item` below): sequences and maps are drained element by element
exactly as `CompositeVisitor::_visit` / `_end` prescribe, and floats are kept
as raw bit patterns (no claim concerns their numeric value).
-/

namespace CborDe

/-- Modelled from the spec: the crate's error kinds (the error module of the
repository is not among the sources; section 7 of the spec lists the kinds).
Invalid text encoding surfaces as `syntaxErr`, per the spec. -/
inductive Error where
  | ioFailure
  | syntaxErr
  | trailingBytes
  | stopCode
  deriving DecidableEq, Repr

/-- Result channel of the fueled model: a program error, or fuel exhaustion
(an artifact of the embedding, not a behaviour of the program). -/
inductive Fault where
  | prog (e : Error)
  | outOfFuel
  deriving DecidableEq, Repr

/-- Decoded items, as produced by the generic tree-building visitor.
`half`, `float32` and `float64` keep the raw big-endian bit pattern read from
the wire (the code widens the half-precision pattern to `f32` numerically;
no claim depends on that arithmetic). -/
inductive Item where
  | uint (n : Nat)
  | int (i : Int)
  | bytes (b : List Nat)
  | text (b : List Nat)
  | seq (l : List Item)
  | map (l : List (Item × Item))
  | bool (b : Bool)
  | unit
  | half (bits : Nat)
  | float32 (bits : Nat)
  | float64 (bits : Nat)

/-- `const MAX_SEQ_LEN: u64 = 524288;` (line 11 of `de.rs`). -/
def MAX_SEQ_LEN : Nat := 524288

/-- `ReadBytesExt::read_u8`: one byte from the source. -/
def read_u8 : List Nat → Except Error (Nat × List Nat)
  | [] => .error .ioFailure
  | b :: s => .ok (b, s)

/-- `Read::read_exact` into a buffer of length `k`: fails with an io error
when the source holds fewer than `k` bytes. -/
def readExactBytes : Nat → List Nat → Except Error (List Nat × List Nat)
  | 0, s => .ok ([], s)
  | _ + 1, [] => .error .ioFailure
  | k + 1, b :: s =>
    match readExactBytes k s with
    | .ok (bs, r) => .ok (b :: bs, r)
    | .error e => .error e

/-- Big-endian value of a byte list. -/
def beNat (l : List Nat) : Nat := l.foldl (fun acc b => acc * 256 + b) 0

/-- `read_u16` / `read_u32` / `read_u64` with `BigEndian`, generalised over
the byte width `k`. -/
def read_be (k : Nat) (s : List Nat) : Except Error (Nat × List Nat) :=
  match readExactBytes k s with
  | .ok (bs, r) => .ok (beNat bs, r)
  | .error e => .error e

/-- `Deserializer::parse_additional_information` (lines 63-74): the 5-bit
additional-information field is a literal argument (0-23), a byte-width
selector (24-27), the absent-argument marker (31, returned as `none`), or
invalid. -/
def parse_additional_information (first : Nat) (s : List Nat) :
    Except Error (Option Nat × List Nat) :=
  let ai := first % 32
  if ai ≤ 23 then .ok (some ai, s)
  else if ai = 24 then
    match read_be 1 s with
    | .ok (n, r) => .ok (some n, r)
    | .error e => .error e
  else if ai = 25 then
    match read_be 2 s with
    | .ok (n, r) => .ok (some n, r)
    | .error e => .error e
  else if ai = 26 then
    match read_be 4 s with
    | .ok (n, r) => .ok (some n, r)
    | .error e => .error e
  else if ai = 27 then
    match read_be 8 s with
    | .ok (n, r) => .ok (some n, r)
    | .error e => .error e
  else if ai = 31 then .ok (none, s)
  else .error .syntaxErr

/-- `Deserializer::parse_size_information` (lines 76-83): same as the above
but a present argument larger than `MAX_SEQ_LEN` is a syntax error. -/
def parse_size_information (first : Nat) (s : List Nat) :
    Except Error (Option Nat × List Nat) :=
  match parse_additional_information first s with
  | .error e => .error e
  | .ok (some n, r) =>
    if n > MAX_SEQ_LEN then .error .syntaxErr else .ok (some n, r)
  | .ok (none, r) => .ok (none, r)

/-- `Deserializer::parse_uint` (lines 85-95): major type 0; the argument is
delivered unchanged (the `visit_u8`/`u16`/`u32`/`u64` widths are all exact). -/
def parse_uint (first : Nat) (s : List Nat) : Except Error (Item × List Nat) :=
  let ai := first % 32
  if ai ≤ 23 then .ok (.uint ai, s)
  else if ai = 24 then
    match read_be 1 s with
    | .ok (n, r) => .ok (.uint n, r)
    | .error e => .error e
  else if ai = 25 then
    match read_be 2 s with
    | .ok (n, r) => .ok (.uint n, r)
    | .error e => .error e
  else if ai = 26 then
    match read_be 4 s with
    | .ok (n, r) => .ok (.uint n, r)
    | .error e => .error e
  else if ai = 27 then
    match read_be 8 s with
    | .ok (n, r) => .ok (.uint n, r)
    | .error e => .error e
  else .error .syntaxErr

/-- `x as i64` on a `u64` value: two's-complement wrap at 64 bits. -/
def toI64 (x : Nat) : Int := if x < 2 ^ 63 then (x : Int) else (x : Int) - 2 ^ 64

/-- `Deserializer::parse_int` (lines 97-107): major type 1.  The widths
chosen by the code make the casts for the 1-, 2- and 4-byte arguments exact
(`u8 as i16`, `u16 as i32`, `u32 as i64`), but the 8-byte case computes
`-1 - (x as i64)` where `u64 as i64` wraps (`toI64`). -/
def parse_int (first : Nat) (s : List Nat) : Except Error (Item × List Nat) :=
  let ai := first % 32
  if ai ≤ 23 then .ok (.int (-1 - (ai : Int)), s)
  else if ai = 24 then
    match read_be 1 s with
    | .ok (n, r) => .ok (.int (-1 - (n : Int)), r)
    | .error e => .error e
  else if ai = 25 then
    match read_be 2 s with
    | .ok (n, r) => .ok (.int (-1 - (n : Int)), r)
    | .error e => .error e
  else if ai = 26 then
    match read_be 4 s with
    | .ok (n, r) => .ok (.int (-1 - (n : Int)), r)
    | .error e => .error e
  else if ai = 27 then
    match read_be 8 s with
    | .ok (n, r) => .ok (.int (-1 - toI64 n), r)
    | .error e => .error e
  else .error .syntaxErr

/-- `Deserializer::parse_simple_value` (lines 166-198): major type 7.
Additional information 31 is the stop sentinel, surfaced as the internal
`stopCode` error. -/
def parse_simple_value (first : Nat) (s : List Nat) :
    Except Error (Item × List Nat) :=
  let ai := first % 32
  if ai = 20 then .ok (.bool false, s)
  else if ai = 21 then .ok (.bool true, s)
  else if ai = 22 then .ok (.unit, s)
  else if ai = 23 then .ok (.unit, s)
  else if ai = 25 then
    match read_be 2 s with
    | .ok (n, r) => .ok (.half n, r)
    | .error e => .error e
  else if ai = 26 then
    match read_be 4 s with
    | .ok (n, r) => .ok (.float32 n, r)
    | .error e => .error e
  else if ai = 27 then
    match read_be 8 s with
    | .ok (n, r) => .ok (.float64 n, r)
    | .error e => .error e
  else if ai = 31 then .error .stopCode
  else .error .syntaxErr

/-- Continuation byte of a multi-byte encoded scalar: `0x80..=0xBF`. -/
def utf8Cont (b : Nat) : Bool := decide (128 ≤ b ∧ b ≤ 191)

/-- `String::from_utf8` validation (the well-formedness check the code runs
on definite-length text strings): standard UTF-8, rejecting overlong forms,
surrogates and values beyond `U+10FFFF`. -/
def utf8Valid : List Nat → Bool
  | [] => true
  | b :: t =>
    if b ≤ 127 then utf8Valid t
    else if 194 ≤ b ∧ b ≤ 223 then
      match t with
      | c1 :: r => utf8Cont c1 && utf8Valid r
      | [] => false
    else if b = 224 then
      match t with
      | c1 :: c2 :: r => decide (160 ≤ c1 ∧ c1 ≤ 191) && utf8Cont c2 && utf8Valid r
      | _ => false
    else if 225 ≤ b ∧ b ≤ 236 then
      match t with
      | c1 :: c2 :: r => utf8Cont c1 && utf8Cont c2 && utf8Valid r
      | _ => false
    else if b = 237 then
      match t with
      | c1 :: c2 :: r => decide (128 ≤ c1 ∧ c1 ≤ 159) && utf8Cont c2 && utf8Valid r
      | _ => false
    else if 238 ≤ b ∧ b ≤ 239 then
      match t with
      | c1 :: c2 :: r => utf8Cont c1 && utf8Cont c2 && utf8Valid r
      | _ => false
    else if b = 240 then
      match t with
      | c1 :: c2 :: c3 :: r =>
        decide (144 ≤ c1 ∧ c1 ≤ 191) && utf8Cont c2 && utf8Cont c3 && utf8Valid r
      | _ => false
    else if 241 ≤ b ∧ b ≤ 243 then
      match t with
      | c1 :: c2 :: c3 :: r =>
        utf8Cont c1 && utf8Cont c2 && utf8Cont c3 && utf8Valid r
      | _ => false
    else if b = 244 then
      match t with
      | c1 :: c2 :: c3 :: r =>
        decide (128 ≤ c1 ∧ c1 ≤ 143) && utf8Cont c2 && utf8Cont c3 && utf8Valid r
      | _ => false
    else false

/-- `CompositeVisitor::_visit` (lines 320-334), parametric in the item
decoder `d` (standing for `Deserialize::deserialize(self.de)`, which mutates
the decoder state `σ` in place and may fail).  The composite state is
`some n` for `Known(n)` and `none` for `Unknown`.  The count is decremented
before the element decode runs; the stop code is caught only when the state
is `Unknown`, transitioning it to `Known(0)`. -/
def compVisit {σ α : Type} (d : σ → Except Fault α × σ) :
    Option Nat → σ → Except Fault (Option α) × (Option Nat × σ)
  | some 0, s => (.ok none, some 0, s)
  | some (n + 1), s =>
    match d s with
    | (.ok v, s') => (.ok (some v), some n, s')
    | (.error e, s') => (.error e, some n, s')
  | none, s =>
    match d s with
    | (.ok v, s') => (.ok (some v), none, s')
    | (.error (.prog .stopCode), s') => (.ok none, some 0, s')
    | (.error e, s') => (.error e, none, s')

/-- `CompositeVisitor::_end` (lines 336-342): succeeds exactly at `Known(0)`,
otherwise `TrailingBytes`. -/
def compEnd : Option Nat → Except Error Unit
  | some 0 => .ok ()
  | _ => .error .trailingBytes

/-- Lift a non-recursive parse result into the fueled result channel; on a
program error the stream position `s` at entry is reported (never observed:
only the stop code is caught, and its raisers consume nothing after `s`). -/
def liftE {α : Type} (s : List Nat) :
    Except Error (α × List Nat) → Except Fault α × List Nat
  | .ok (a, r) => (.ok a, r)
  | .error e => (.error (.prog e), s)

mutual

/-- `de::Deserializer::deserialize` (lines 227-235): take the pending
lookahead byte if present, else read one fresh byte, then dispatch. -/
def deserialize : Nat → Option Nat → List Nat → Except Fault Item × List Nat
  | 0, _, s => (.error .outOfFuel, s)
  | f + 1, some b, s => parse_value f b s
  | f + 1, none, s =>
    match read_u8 s with
    | .ok (b, s') => parse_value f b s'
    | .error e => (.error (.prog e), s)
termination_by structural f => f

/-- `Deserializer::parse_value` (lines 46-61): dispatch on the 3-bit major
type of the header byte. -/
def parse_value : Nat → Nat → List Nat → Except Fault Item × List Nat
  | 0, _, s => (.error .outOfFuel, s)
  | f + 1, first, s =>
    match first / 32 % 8 with
    | 0 => liftE s (parse_uint first s)
    | 1 => liftE s (parse_int first s)
    | 2 => parse_byte_buf f first s
    | 3 => parse_string f first s
    | 4 => parse_seq f first s
    | 5 => parse_map f first s
    | 6 => parse_tag f first s
    | _ => liftE s (parse_simple_value first s)
termination_by structural f => f

/-- `Deserializer::parse_byte_buf` (lines 109-126): definite length reads
exactly `n` bytes; indefinite length concatenates chunks until the stop
code. -/
def parse_byte_buf : Nat → Nat → List Nat → Except Fault Item × List Nat
  | 0, _, s => (.error .outOfFuel, s)
  | f + 1, first, s =>
    match parse_size_information first s with
    | .error e => (.error (.prog e), s)
    | .ok (some n, s') =>
      match readExactBytes n s' with
      | .ok (buf, r) => (.ok (.bytes buf), r)
      | .error e => (.error (.prog e), s')
    | .ok (none, s') =>
      match chunkLoopBytes f [] s' with
      | (.ok bs, r) => (.ok (.bytes bs), r)
      | (.error e, r) => (.error e, r)
termination_by structural f => f

/-- The chunk loop of `parse_byte_buf`: each iteration runs
`ByteBuf::deserialize(self)`; a decoded byte string is appended, the stop
code breaks the loop, any other error propagates.  A chunk of any other item
kind is rejected by the `ByteBuf` visitor (modelled from the spec as a syntax
error: the error-conversion glue is outside the sources). -/
def chunkLoopBytes : Nat → List Nat → List Nat → Except Fault (List Nat) × List Nat
  | 0, _, s => (.error .outOfFuel, s)
  | f + 1, acc, s =>
    match deserialize f none s with
    | (.ok (.bytes b), s') => chunkLoopBytes f (acc ++ b) s'
    | (.ok _, s') => (.error (.prog .syntaxErr), s')
    | (.error (.prog .stopCode), s') => (.ok acc, s')
    | (.error e, s') => (.error e, s')
termination_by structural f => f

/-- `Deserializer::parse_string` (lines 128-145): like `parse_byte_buf` but
the definite-length bytes must be valid UTF-8. -/
def parse_string : Nat → Nat → List Nat → Except Fault Item × List Nat
  | 0, _, s => (.error .outOfFuel, s)
  | f + 1, first, s =>
    match parse_size_information first s with
    | .error e => (.error (.prog e), s)
    | .ok (some n, s') =>
      match readExactBytes n s' with
      | .ok (buf, r) =>
        if utf8Valid buf then (.ok (.text buf), r)
        else (.error (.prog .syntaxErr), r)
      | .error e => (.error (.prog e), s')
    | .ok (none, s') =>
      match chunkLoopText f [] s' with
      | (.ok bs, r) => (.ok (.text bs), r)
      | (.error e, r) => (.error e, r)
termination_by structural f => f

/-- The chunk loop of `parse_string`: each iteration runs
`String::deserialize(self)`; a decoded text chunk is appended, the stop code
breaks, any other error propagates, and a chunk of any other item kind is
rejected by the `String` visitor (modelled from the spec as a syntax error). -/
def chunkLoopText : Nat → List Nat → List Nat → Except Fault (List Nat) × List Nat
  | 0, _, s => (.error .outOfFuel, s)
  | f + 1, acc, s =>
    match deserialize f none s with
    | (.ok (.text b), s') => chunkLoopText f (acc ++ b) s'
    | (.ok _, s') => (.error (.prog .syntaxErr), s')
    | (.error (.prog .stopCode), s') => (.ok acc, s')
    | (.error e, s') => (.error e, s')
termination_by structural f => f

/-- `Deserializer::parse_seq` (lines 147-151) composed with the generic
sequence visitor: construct the composite with the parsed size, pull
elements until "no more items", then run the finaliser. -/
def parse_seq : Nat → Nat → List Nat → Except Fault Item × List Nat
  | 0, _, s => (.error .outOfFuel, s)
  | f + 1, first, s =>
    match parse_size_information first s with
    | .error e => (.error (.prog e), s)
    | .ok (n, s') =>
      match drainSeq f n s' with
      | (.ok l, items, r) =>
        match compEnd items with
        | .ok _ => (.ok (.seq l), r)
        | .error e => (.error (.prog e), r)
      | (.error e, _, r) => (.error e, r)
termination_by structural f => f

/-- The generic sequence visitor's pull loop: one `_visit` step (inlined from
lines 320-334, with `Deserialize::deserialize(self.de)` as the element
decoder) per iteration, collecting elements until "no more items". -/
def drainSeq : Nat → Option Nat → List Nat →
    Except Fault (List Item) × (Option Nat × List Nat)
  | 0, items, s => (.error .outOfFuel, items, s)
  | _ + 1, some 0, s => (.ok [], some 0, s)
  | f + 1, some (n + 1), s =>
    match deserialize f none s with
    | (.ok v, s') =>
      match drainSeq f (some n) s' with
      | (.ok l, st) => (.ok (v :: l), st)
      | (.error e, st) => (.error e, st)
    | (.error e, s') => (.error e, some n, s')
  | f + 1, none, s =>
    match deserialize f none s with
    | (.ok v, s') =>
      match drainSeq f none s' with
      | (.ok l, st) => (.ok (v :: l), st)
      | (.error e, st) => (.error e, st)
    | (.error (.prog .stopCode), s') => (.ok [], some 0, s')
    | (.error e, s') => (.error e, none, s')
termination_by structural f => f

/-- `Deserializer::parse_map` (lines 153-157) composed with the generic map
visitor. -/
def parse_map : Nat → Nat → List Nat → Except Fault Item × List Nat
  | 0, _, s => (.error .outOfFuel, s)
  | f + 1, first, s =>
    match parse_size_information first s with
    | .error e => (.error (.prog e), s)
    | .ok (n, s') =>
      match drainMap f n s' with
      | (.ok l, items, r) =>
        match compEnd items with
        | .ok _ => (.ok (.map l), r)
        | .error e => (.error (.prog e), r)
      | (.error e, _, r) => (.error e, r)
termination_by structural f => f

/-- The generic map visitor's pull loop: keys go through `_visit` (which
decrements the count and catches the stop code in indefinite mode), values
through `visit_value` (lines 359-361), which decodes unconditionally. -/
def drainMap : Nat → Option Nat → List Nat →
    Except Fault (List (Item × Item)) × (Option Nat × List Nat)
  | 0, items, s => (.error .outOfFuel, items, s)
  | _ + 1, some 0, s => (.ok [], some 0, s)
  | f + 1, some (n + 1), s =>
    match deserialize f none s with
    | (.ok k, s') =>
      match deserialize f none s' with
      | (.ok v, s'') =>
        match drainMap f (some n) s'' with
        | (.ok l, st) => (.ok ((k, v) :: l), st)
        | (.error e, st) => (.error e, st)
      | (.error e, s'') => (.error e, some n, s'')
    | (.error e, s') => (.error e, some n, s')
  | f + 1, none, s =>
    match deserialize f none s with
    | (.ok k, s') =>
      match deserialize f none s' with
      | (.ok v, s'') =>
        match drainMap f none s'' with
        | (.ok l, st) => (.ok ((k, v) :: l), st)
        | (.error e, st) => (.error e, st)
      | (.error e, s'') => (.error e, none, s'')
    | (.error (.prog .stopCode), s') => (.ok [], some 0, s')
    | (.error e, s') => (.error e, none, s')
termination_by structural f => f

/-- `Deserializer::parse_tag` (lines 159-164): parse and discard the tag's
argument, read the next header byte into the lookahead slot, and decode the
tagged value in its place. -/
def parse_tag : Nat → Nat → List Nat → Except Fault Item × List Nat
  | 0, _, s => (.error .outOfFuel, s)
  | f + 1, first, s =>
    match parse_additional_information first s with
    | .error e => (.error (.prog e), s)
    | .ok (_, s') =>
      match read_u8 s' with
      | .ok (b, s'') => parse_value f b s''
      | .error e => (.error (.prog e), s')

termination_by structural f => f
end

/-- `Deserializer::end` (lines 37-44): read one probe byte; zero bytes read
means the stream is exhausted, anything else is `TrailingBytes`. -/
def deserializerEnd : List Nat → Except Error Unit
  | [] => .ok ()
  | _ :: _ => .error .trailingBytes

/-- `from_reader` (lines 398-405): decode one value, then check
end-of-stream. -/
def from_reader (fuel : Nat) (s : List Nat) : Except Fault Item :=
  match deserialize fuel none s with
  | (.ok v, rest) =>
    match deserializerEnd rest with
    | .ok _ => .ok v
    | .error e => .error (.prog e)
  | (.error e, _) => .error e

/-- `from_slice` (lines 407-411): `from_reader` over a byte slice. -/
def from_slice (fuel : Nat) (s : List Nat) : Except Fault Item :=
  from_reader fuel s

/-- `Deserializer::deserialize_enum` (lines 258-273): read one fresh header
byte; a text string pushes the byte back into the lookahead slot and makes a
composite with count 0; a sequence takes its parsed size as the count; any
other major type is a syntax error.  Returns the composite count, the
lookahead slot, and the stream. -/
def deserialize_enum (s : List Nat) :
    Except Error (Option Nat × Option Nat × List Nat) :=
  match read_u8 s with
  | .error e => .error e
  | .ok (first, s') =>
    match first / 32 % 8 with
    | 3 => .ok (some 0, some first, s')
    | 4 =>
      match parse_size_information first s' with
      | .error e => .error e
      | .ok (n, s'') => .ok (n, none, s'')
    | _ => .error .syntaxErr

/-- `VariantVisitor::visit_unit` (lines 372-378): succeeds exactly when the
composite count is `Known(0)`. -/
def visit_unit_variant (items : Option Nat) : Except Error Unit :=
  if items = some 0 then .ok () else .error .syntaxErr

/-- `VariantVisitor::visit_tuple` (lines 384-390): a known count must equal
`len + 1` (selector plus `len` fields); then the fields are pulled through a
fresh composite of count `len`. -/
def visit_tuple (fuel : Nat) (items : Option Nat) (len : Nat) (s : List Nat) :
    Except Fault Item × List Nat :=
  if items.isSome ∧ items ≠ some (len + 1) then (.error (.prog .syntaxErr), s)
  else
    match drainSeq fuel (some len) s with
    | (.ok l, st, r) =>
      match compEnd st with
      | .ok _ => (.ok (.seq l), r)
      | .error e => (.error (.prog e), r)
    | (.error e, _, r) => (.error e, r)

/-- The decode pipeline of a unit-like variant: `deserialize_enum`, then
`visit_variant` (lines 368-370, a plain `Deserialize::deserialize(self.de)` —
it does not touch the composite count), then `visit_unit`. -/
def decode_unit_variant (fuel : Nat) (s : List Nat) :
    Except Fault Item × List Nat :=
  match deserialize_enum s with
  | .error e => (.error (.prog e), s)
  | .ok (items, firstSlot, s1) =>
    match deserialize fuel firstSlot s1 with
    | (.ok sel, s2) =>
      match visit_unit_variant items with
      | .ok _ => (.ok sel, s2)
      | .error e => (.error (.prog e), s2)
    | (.error e, s2) => (.error e, s2)

/-! ### Helper lemmas -/

theorem readExactBytes_append (arg rest : List Nat) :
    readExactBytes arg.length (arg ++ rest) = .ok (arg, rest) := by
  induction arg with
  | nil => rfl
  | cons b t ih => simp [readExactBytes, ih]

theorem read_be_of_len (k : Nat) (arg rest : List Nat) (h : arg.length = k) :
    read_be k (arg ++ rest) = .ok (beNat arg, rest) := by
  subst h
  simp [read_be, readExactBytes_append]

theorem pai_lit (first : Nat) (s : List Nat) (h : first % 32 ≤ 23) :
    parse_additional_information first s = .ok (some (first % 32), s) := by
  simp [parse_additional_information, h]

theorem pai_stop (first : Nat) (s : List Nat) (h : first % 32 = 31) :
    parse_additional_information first s = .ok (none, s) := by
  simp [parse_additional_information, h]

/-- Byte width of the argument selected by an additional-information value
in `{24, 25, 26, 27}`; `none` for every other value. -/
def argWidth (ai : Nat) : Option Nat :=
  if ai = 24 then some 1
  else if ai = 25 then some 2
  else if ai = 26 then some 4
  else if ai = 27 then some 8
  else none

theorem pai_arg (first k : Nat) (arg rest : List Nat)
    (hk : argWidth (first % 32) = some k) (hlen : arg.length = k) :
    parse_additional_information first (arg ++ rest) =
      .ok (some (beNat arg), rest) := by
  simp only [argWidth] at hk
  split_ifs at hk with h1 h2 h3 h4 <;>
    simp_all [parse_additional_information, read_be_of_len _ _ rest hlen]

/-! ### C1 -/

/-- C1: `CompositeVisitor::_visit` in element/key position: at `Known(0)` it
returns "no more items" without invoking the item decoder and without moving
the decoder state; at `Known(n+1)` it decrements the count, runs exactly one
item decode and returns the item; at `Unknown` a decode that yields the stop
sentinel transitions the state to `Known(0)` and returns "no more items",
and a successful decode returns the item with the state still `Unknown`. -/
theorem C1_pull_next {σ α : Type} (d : σ → Except Fault α × σ) (s : σ) (n : Nat) :
    compVisit d (some 0) s = (.ok none, some 0, s)
    ∧ (∀ v s', d s = (.ok v, s') → compVisit d (some (n + 1)) s = (.ok (some v), some n, s'))
    ∧ (∀ s', d s = (.error (.prog .stopCode), s') → compVisit d none s = (.ok none, some 0, s'))
    ∧ (∀ v s', d s = (.ok v, s') → compVisit d none s = (.ok (some v), none, s')) := by
  refine ⟨rfl, ?_, ?_, ?_⟩
  · intro v s' h
    simp [compVisit, h]
  · intro s' h
    simp [compVisit, h]
  · intro v s' h
    simp [compVisit, h]

/-- Witness for C1, with the real item decoder over a list byte source. -/
theorem C1_pull_next_witness :
    compVisit (fun s : List Nat => deserialize 4 none s) (some 0) [9] = (.ok none, some 0, [9])
    ∧ compVisit (fun s : List Nat => deserialize 4 none s) (some 2) [0] = (.ok (some (.uint 0)), some 1, [])
    ∧ compVisit (fun s : List Nat => deserialize 4 none s) none [255] = (.ok none, some 0, [])
    ∧ compVisit (fun s : List Nat => deserialize 4 none s) none [0] = (.ok (some (.uint 0)), none, []) :=
  ⟨(C1_pull_next (fun s : List Nat => deserialize 4 none s) [9] 0).1,
   (C1_pull_next (fun s : List Nat => deserialize 4 none s) [0] 1).2.1 (.uint 0) [] rfl,
   (C1_pull_next (fun s : List Nat => deserialize 4 none s) [255] 0).2.2.1 [] rfl,
   (C1_pull_next (fun s : List Nat => deserialize 4 none s) [0] 0).2.2.2 (.uint 0) [] rfl⟩

/-! ### C3 -/

/-- C3: the claim (and spec section 4.1) requires a `Syntax` error when
`-1 - argument` does not fit the target signed width, in particular for an
8-byte argument of at least `2^63`.  The code instead computes
`-1 - (argument as i64)` with a wrapping cast: on the failing input
`3B 80 00 00 00 00 00 00 00` (major type 1, argument `2^63`) it delivers
the wrapped, positive value `2^63 - 1` — for an item that by the wire format
always denotes a negative number. -/
theorem C3_neg_int_wrap :
    from_slice 3 [59, 128, 0, 0, 0, 0, 0, 0, 0] = .ok (.int 9223372036854775807)
    ∧ parse_int 59 [128, 0, 0, 0, 0, 0, 0, 0] = .ok (.int 9223372036854775807, []) :=
  ⟨rfl, rfl⟩

/-! ### C4 -/

/-- C4 counterexample: with the state at `Known(0)` (the state reached both
when a declared count is exhausted and after the stop sentinel of an
indefinite run), a further pull returns the ordinary "no more items" result
`Ok(None)` with the state unchanged — it is not an error, contradicting the
claim that it is an error distinguishable from normal termination. -/
theorem C4_pull_after_end_cex :
    compVisit (fun s : List Nat => deserialize 3 none s) (some 0) [23] = (.ok none, some 0, [23])
    ∧ ∀ e, (compVisit (fun s : List Nat => deserialize 3 none s) (some 0) [23]).1 ≠ .error e :=
  ⟨rfl, fun _ h => nomatch h⟩

/-- C4 amended: once the state is `Known(0)` — the declared count was
consumed, or the terminator of an indefinite run was observed — every
further pull returns the normal "no more items" result again, idempotently,
with the state unchanged and no byte read. -/
theorem C4_pull_after_end_amended {σ α : Type} (d : σ → Except Fault α × σ) (s : σ) :
    compVisit d (some 0) s = (.ok none, some 0, s) := rfl

/-! ### C5 -/

/-- C5: `CompositeVisitor::_end` succeeds exactly when the state is
`Known(0)`; in every other state — `Known(n+1)` or still-`Unknown` — it
fails with `TrailingBytes`. -/
theorem C5_finish (items : Option Nat) (n : Nat) :
    (compEnd items = .ok () ↔ items = some 0)
    ∧ (n ≠ 0 → compEnd (some n) = .error .trailingBytes)
    ∧ compEnd none = .error .trailingBytes := by
  refine ⟨?_, ?_, rfl⟩
  · rcases items with _ | k
    · simp [compEnd]
    · rcases k with _ | k <;> simp [compEnd]
  · intro hn
    rcases n with _ | k
    · exact absurd rfl hn
    · rfl

/-- Witness for C5. -/
theorem C5_finish_witness :
    compEnd (some 0) = .ok () ∧ compEnd (some 2) = .error .trailingBytes :=
  ⟨(C5_finish (some 0) 1).1.mpr rfl, (C5_finish none 2).2.1 (by decide)⟩

/-! ### C2 -/

/-- C2 counterexample: a stop sentinel in top-level position escapes the
public entry point unchanged: `from_slice` on the single byte `0xFF` returns
the internal `StopCode` error itself, not `Syntax` — so `StopCode` is not
confined to the decoder. -/
theorem C2_stop_code_cex :
    from_slice 2 [255] = .error (.prog .stopCode)
    ∧ from_slice 2 [255] ≠ .error (.prog .syntaxErr) :=
  ⟨rfl, fun h => nomatch h⟩

/-- C2 amended: the chunked string/bytes assembly loops and indefinite
composite iteration catch the stop code and convert it to normal
termination, but every other site propagates it unchanged — in particular a
stop sentinel in any element position of a definite-count composite, or at
the top level, surfaces from the public entry point as `StopCode`, never
converted to `Syntax`. -/
theorem C2_stop_code_amended (f n : Nat) (acc rest : List Nat) :
    chunkLoopBytes (f + 3) acc (255 :: rest) = (.ok acc, rest)
    ∧ chunkLoopText (f + 3) acc (255 :: rest) = (.ok acc, rest)
    ∧ drainSeq (f + 3) none (255 :: rest) = (.ok [], some 0, rest)
    ∧ drainMap (f + 3) none (255 :: rest) = (.ok [], some 0, rest)
    ∧ from_reader (f + 2) (255 :: rest) = .error (.prog .stopCode)
    ∧ (drainSeq (f + 3) (some (n + 1)) (255 :: rest)).1 = .error (.prog .stopCode) := by
  have hstop : deserialize (f + 2) none (255 :: rest) = (.error (.prog .stopCode), rest) := by
    simp [deserialize, read_u8, parse_value, liftE, parse_simple_value]
  refine ⟨?_, ?_, ?_, ?_, ?_, ?_⟩ <;>
    simp [chunkLoopBytes, chunkLoopText, drainSeq, drainMap, from_reader, hstop]

/-! ### C6 -/

/-- C6: the public entry point decodes exactly one value and then checks
end-of-stream by reading one probe byte: an empty remainder means success,
any remaining byte yields `TrailingBytes`. -/
theorem C6_entry_end_check (f : Nat) (s : List Nat) (v : Item) (rest : List Nat)
    (h : deserialize f none s = (.ok v, rest)) :
    from_reader f s = (if rest = [] then .ok v else .error (.prog .trailingBytes))
    ∧ deserializerEnd [] = .ok ()
    ∧ (∀ b t, deserializerEnd (b :: t) = .error .trailingBytes) := by
  refine ⟨?_, rfl, fun b t => rfl⟩
  rcases rest with _ | ⟨b, t⟩ <;> simp [from_reader, h, deserializerEnd]

/-- Witness for C6: the byte string `41 41` ("A") decodes; followed by one
extra byte `AB` the entry point fails with `TrailingBytes`, and with no
extra byte it succeeds. -/
theorem C6_entry_end_check_witness :
    from_reader 5 [65, 65, 171] = .error (.prog .trailingBytes)
    ∧ from_reader 5 [65, 65] = .ok (.bytes [65]) := by
  constructor
  · have h := (C6_entry_end_check 5 [65, 65, 171] (.bytes [65]) [171] rfl).1
    simpa using h
  · have h := (C6_entry_end_check 5 [65, 65] (.bytes [65]) [] rfl).1
    simpa using h

/-! ### C7 and C10: tag transparency -/

/-- Well-formed tag item after the header byte `0xC0 + ai`: the
additional-information value together with the matching argument bytes
(empty for a literal argument and for the absent-argument marker 31). -/
def tagHeaderOk (ai : Nat) (arg : List Nat) : Prop :=
  (ai ≤ 23 ∧ arg = []) ∨ (ai = 24 ∧ arg.length = 1) ∨ (ai = 25 ∧ arg.length = 2)
    ∨ (ai = 26 ∧ arg.length = 4) ∨ (ai = 27 ∧ arg.length = 8) ∨ (ai = 31 ∧ arg = [])

/-- The byte run of a list of tag items prefixed to `rest`. -/
def tagRun : List (Nat × List Nat) → List Nat → List Nat
  | [], rest => rest
  | (ai, arg) :: tl, rest => (192 + ai) :: (arg ++ tagRun tl rest)

/-- Skipping one well-formed tag item: `parse_tag` parses and discards the
argument, reads the next byte and decodes in its place, so decoding the
tagged bytes is decoding the rest (the fuel offset accounts for the two
extra dispatch steps the tag costs the fueled model). -/
theorem tag_skip (f ai : Nat) (arg rest : List Nat) (h : tagHeaderOk ai arg) :
    deserialize (f + 3) none ((192 + ai) :: (arg ++ rest)) =
      deserialize (f + 1) none rest := by
  have hlt : ai < 32 := by
    rcases h with ⟨h1, _⟩ | ⟨h1, _⟩ | ⟨h1, _⟩ | ⟨h1, _⟩ | ⟨h1, _⟩ | ⟨h1, _⟩ <;> omega
  have hmod : (192 + ai) % 32 = ai := by omega
  have hmaj : (192 + ai) / 32 % 8 = 6 := by omega
  obtain ⟨v, hpai⟩ :
      ∃ v, parse_additional_information (192 + ai) (arg ++ rest) = .ok (v, rest) := by
    rcases h with ⟨h1, h2⟩ | ⟨h1, h2⟩ | ⟨h1, h2⟩ | ⟨h1, h2⟩ | ⟨h1, h2⟩ | ⟨h1, h2⟩
    · subst h2
      exact ⟨some ai, by simpa [hmod] using pai_lit (192 + ai) rest (by omega)⟩
    · exact ⟨some (beNat arg), pai_arg _ 1 _ _ (by simp [argWidth, hmod, h1]) h2⟩
    · exact ⟨some (beNat arg), pai_arg _ 2 _ _ (by simp [argWidth, hmod, h1]) h2⟩
    · exact ⟨some (beNat arg), pai_arg _ 4 _ _ (by simp [argWidth, hmod, h1]) h2⟩
    · exact ⟨some (beNat arg), pai_arg _ 8 _ _ (by simp [argWidth, hmod, h1]) h2⟩
    · subst h2
      exact ⟨none, by simpa using pai_stop (192 + ai) rest (by omega)⟩
  simp only [deserialize, read_u8, parse_value, hmaj]
  simp only [parse_tag, hpai]
  rcases rest with _ | ⟨b, r⟩ <;> simp [read_u8, deserialize]

/-- C7: tags are transparent.  For every well-formed tag item prefixed to a
byte stream, decoding the tagged bytes gives exactly the same result (value,
error, and stream position alike) as decoding the rest alone; iterating,
any run of nested tag items is skipped the same way.  The fuel offsets are
an artifact of the fueled model only. -/
theorem C7_tag_transparent :
    (∀ (f ai : Nat) (arg rest : List Nat), tagHeaderOk ai arg →
      deserialize (f + 3) none ((192 + ai) :: (arg ++ rest)) =
        deserialize (f + 1) none rest)
    ∧ (∀ (f : Nat) (tags : List (Nat × List Nat)) (rest : List Nat),
        (∀ p ∈ tags, tagHeaderOk p.1 p.2) →
        deserialize (f + 1 + 2 * tags.length) none (tagRun tags rest) =
          deserialize (f + 1) none rest) := by
  constructor
  · exact fun f ai arg rest h => tag_skip f ai arg rest h
  · intro f tags
    induction tags with
    | nil => intro rest _; simp [tagRun]
    | cons p tl ih =>
      intro rest h
      obtain ⟨ai, arg⟩ := p
      have hp : tagHeaderOk ai arg := h (ai, arg) (by simp)
      have htl : ∀ q ∈ tl, tagHeaderOk q.1 q.2 := fun q hq => h q (by simp [hq])
      have harith : f + 1 + 2 * ((ai, arg) :: tl).length = f + 2 * tl.length + 3 := by
        simp [List.length_cons]
        ring
      rw [harith, tagRun, tag_skip (f + 2 * tl.length) ai arg (tagRun tl rest) hp,
        show f + 2 * tl.length + 1 = f + 1 + 2 * tl.length by ring]
      exact ih rest htl

/-- Witness for C7: the tag item `D8 05` (tag 5, 1-byte argument) prefixed
to the unsigned integer `00` decodes to the same result as `00` alone. -/
theorem C7_tag_transparent_witness :
    tagHeaderOk 24 [5]
    ∧ deserialize 4 none [216, 5, 0] = deserialize 2 none [0]
    ∧ deserialize 2 none [0] = (.ok (.uint 0), []) :=
  ⟨Or.inr (Or.inl ⟨rfl, rfl⟩),
   C7_tag_transparent.1 1 24 [5] [0] (Or.inr (Or.inl ⟨rfl, rfl⟩)),
   rfl⟩

/-! ### C10 -/

/-- C10: the header byte `0xDF` (major type 6, additional information 31 —
an "indefinite-length tag") is not rejected: `parse_additional_information`
returns the absent-argument marker, `parse_tag` discards it and decodes the
following item in place, so decoding `0xDF ++ rest` is exactly decoding
`rest` — it succeeds whenever the following item is valid. -/
theorem C10_indefinite_tag :
    (∀ s : List Nat, parse_additional_information 223 s = .ok (none, s))
    ∧ (∀ (f : Nat) (rest : List Nat),
        deserialize (f + 3) none (223 :: rest) = deserialize (f + 1) none rest) := by
  constructor
  · intro s
    exact pai_stop 223 s rfl
  · intro f rest
    have h := tag_skip f 31 [] rest (Or.inr (Or.inr (Or.inr (Or.inr (Or.inr ⟨rfl, rfl⟩)))))
    simpa using h

/-! ### C8 -/

theorem psi_big (first k : Nat) (arg rest : List Nat)
    (hk : argWidth (first % 32) = some k) (hlen : arg.length = k)
    (hbig : beNat arg > MAX_SEQ_LEN) :
    parse_size_information first (arg ++ rest) = .error .syntaxErr := by
  simp [parse_size_information, pai_arg first k arg rest hk hlen, hbig]

/-- C8: a byte-string, text-string, sequence or map header whose declared
length exceeds `MAX_SEQ_LEN = 2^19 = 524288`, and likewise a sequence header
at a variant-decode site, makes the decoder return a `Syntax` error
immediately after the argument bytes — the result is the same for every
continuation `rest`, so no element is read and no allocation-sized
consumption happens. -/
theorem C8_length_ceiling (f k first : Nat) (arg rest : List Nat)
    (hk : argWidth (first % 32) = some k) (hlen : arg.length = k)
    (hbig : beNat arg > MAX_SEQ_LEN) :
    ((first / 32 % 8 = 2 ∨ first / 32 % 8 = 3 ∨ first / 32 % 8 = 4 ∨ first / 32 % 8 = 5) →
      (deserialize (f + 3) none (first :: (arg ++ rest))).1 = .error (.prog .syntaxErr))
    ∧ (first / 32 % 8 = 4 →
        deserialize_enum (first :: (arg ++ rest)) = .error .syntaxErr) := by
  have hpsi := psi_big first k arg rest hk hlen hbig
  constructor
  · intro hmaj
    rcases hmaj with h | h | h | h <;>
      simp [deserialize, read_u8, parse_value, h, parse_byte_buf, parse_string,
        parse_seq, parse_map, hpsi]
  · intro h4
    simp [deserialize_enum, read_u8, h4, hpsi]

/-- Witness for C8: the byte-string header `5A 00 08 00 01` declares
`524289 = 2^19 + 1` bytes and is rejected without any payload present, and
so is the matching sequence header `9A 00 08 00 01` at a variant-decode
site. -/
theorem C8_length_ceiling_witness :
    (deserialize 3 none [90, 0, 8, 0, 1]).1 = .error (.prog .syntaxErr)
    ∧ deserialize_enum [154, 0, 8, 0, 1] = .error .syntaxErr :=
  ⟨(C8_length_ceiling 0 4 90 [0, 8, 0, 1] [] rfl rfl (by decide)).1 (Or.inl rfl),
   (C8_length_ceiling 0 4 154 [0, 8, 0, 1] [] rfl rfl (by decide)).2 rfl⟩

/-! ### C9 -/

/-- C9 counterexample: a unit variant encoded as the definite-length-1
sequence `81 61 41` (sequence of one element holding the text selector "A")
fails with `Syntax`: consuming the selector through `visit_variant` does not
decrement the composite count, so the count the unit check sees is still 1,
while the claim requires this encoding to succeed. -/
theorem C9_unit_variant_cex :
    decode_unit_variant 3 [129, 97, 65] = (.error (.prog .syntaxErr), []) := rfl

/-- C9 amended: a text-string item at a variant-decode site selects a
unit-like variant (composite count 0, header pushed back for the selector);
a sequence item of declared count `k + 1` selects a variant of `k`
positional fields (a known count differing from `k + 1` is a `Syntax`
error); and since the selector decode leaves the count untouched,
requesting a zero-payload variant succeeds exactly when the count is zero
as constructed — so the text-string form succeeds and a definite-length-1
sequence holding only the selector fails with `Syntax`. -/
theorem C9_unit_variant_amended (fuel len n b : Nat) (s s1 s2 t : List Nat)
    (items firstSlot : Option Nat) (sel : Item) :
    (deserialize_enum s = .ok (items, firstSlot, s1) →
      deserialize fuel firstSlot s1 = (.ok sel, s2) →
      decode_unit_variant fuel s =
        (if items = some 0 then (.ok sel, s2) else (.error (.prog .syntaxErr), s2)))
    ∧ (b / 32 % 8 = 3 → deserialize_enum (b :: t) = .ok (some 0, some b, t))
    ∧ (n ≠ len + 1 → (visit_tuple fuel (some n) len t).1 = .error (.prog .syntaxErr)) := by
  refine ⟨?_, ?_, ?_⟩
  · intro h1 h2
    by_cases hi : items = some 0 <;>
      simp [decode_unit_variant, h1, h2, visit_unit_variant, hi]
  · intro h3
    simp [deserialize_enum, read_u8, h3]
  · intro hn
    simp [visit_tuple, hn]

/-- Witness for C9: the bare text selector "A" (`61 41`) decodes as a unit
variant; the enum entry gives it count 0 with the header pushed back; and a
known count 1 is rejected for a 1-field tuple request (which needs 2). -/
theorem C9_unit_variant_witness :
    decode_unit_variant 3 [97, 65] = (.ok (.text [65]), [])
    ∧ deserialize_enum [97, 65] = .ok (some 0, some 97, [65])
    ∧ (visit_tuple 3 (some 1) 1 []).1 = .error (.prog .syntaxErr) := by
  refine ⟨?_, ?_, ?_⟩
  · have h := (C9_unit_variant_amended 3 0 0 0 [97, 65] [65] [] []
      (some 0) (some 97) (.text [65])).1 rfl rfl
    simpa using h
  · exact (C9_unit_variant_amended 3 0 0 97 [] [] [] [65] none none .unit).2.1 rfl
  · exact (C9_unit_variant_amended 3 1 1 0 [] [] [] [] none none .unit).2.2 (by decide)

end CborDe
